import Mathlib

/-
Verification of the NeuraLens assistive-device controller.

Shallow embedding of the interactive control core of the repository:
`indoorai_pi.py` (button classification, interruptible speech playback,
mode state machine, hold-action dispatcher, credential lookup) and
`assistive_ai.py` (gateway error handling, camera workflow, credential
resolution with interactive prompt).

Conventions of the embedding:
* GPIO reads of the Back/cancel input during a `speak` call are abstracted
  into per-checkpoint oracles (`SpeakEnv`): for each segment index `i`,
  whether the Back line reads HIGH at the checkpoint guarding segment `i`,
  and whether it goes HIGH at some poll while segment `i` is playing.
* Fallible collaborator calls (the Gemini gateway) are `Except String _`
  valued; an `Except.error` escaping a modelled function corresponds to an
  uncaught Python exception propagating out of that function.
* Python truthiness of strings (`if text:`) is modelled as `text ≠ ""`,
  and `None` as `Option.none`.
* Press durations are modelled as rationals; the source compares
  `time.time() - start > HOLD_TIME`.
-/

namespace NeuraLens

/-! ## Input sampler (`indoorai_pi.wait_press`, lines 19-25) -/

/-- `HOLD_TIME = 1.2` from `indoorai_pi.py` line 12. -/
def HOLD_TIME : ℚ := 12 / 10

/-- Result of `wait_press` given the measured press duration `dt`
(`indoorai_pi.py` line 25: `"hold" if time.time() - start > HOLD_TIME else "tap"`). -/
def wait_press_result (dt : ℚ) : String :=
  if dt > HOLD_TIME then "hold" else "tap"

/-! ## Sentence segmentation (`indoorai_pi.speak`, lines 43-44)

The source computes
`text.replace('!', '.').replace('?', '.').split('.')` and then keeps
`s.strip()` for each piece with `s.strip()` non-empty.  Text is modelled
as `List Char`; single-character `str.replace` is a `map`. -/

/-- Python `s.replace(a, b)` for single characters: replace every
occurrence of `a` by `b`. -/
def pyReplace (a b : Char) (s : List Char) : List Char :=
  s.map fun c => if c = a then b else c

/-- Helper for Python `str.split(sep)`: returns the current (first) chunk
and the list of later chunks. -/
def pySplitAux (sep : Char) : List Char → List Char × List (List Char)
  | [] => ([], [])
  | c :: rest =>
    let r := pySplitAux sep rest
    if c = sep then ([], r.1 :: r.2) else (c :: r.1, r.2)

/-- Python `str.split(sep)`: splits on every occurrence of `sep`, keeping
empty chunks (so `"".split('.') = [""]`). -/
def pySplit (sep : Char) (s : List Char) : List (List Char) :=
  (pySplitAux sep s).1 :: (pySplitAux sep s).2

/-- Python `str.strip()`: drop whitespace from both ends. -/
def pyStrip (s : List Char) : List Char :=
  ((s.dropWhile Char.isWhitespace).reverse.dropWhile Char.isWhitespace).reverse

/-- The segment sequence computed by `speak` (`indoorai_pi.py` lines 43-44):
replace `!` and `?` by `.`, split on `.`, strip each piece, drop empties. -/
def sentencesOf (text : List Char) : List (List Char) :=
  ((pySplit '.' (pyReplace '?' '.' (pyReplace '!' '.' text))).map pyStrip).filter
    fun s => !s.isEmpty

/-- Helper for splitting directly on the set of sentence terminators. -/
def splitTermAux : List Char → List Char × List (List Char)
  | [] => ([], [])
  | c :: rest =>
    let r := splitTermAux rest
    if c = '.' ∨ c = '!' ∨ c = '?' then ([], r.1 :: r.2) else (c :: r.1, r.2)

/-- Splitting a text on any of the three sentence terminators, keeping
empty chunks. -/
def splitTerm (s : List Char) : List (List Char) :=
  (splitTermAux s).1 :: (splitTermAux s).2

/-- Modelled from the spec: "Split `text` into an ordered sequence of
sentence segments (splitting on `.`, `!`, `?`; discard empty segments)" —
the non-empty sentence-level chunks of the text, in order. -/
def specSegments (text : List Char) : List (List Char) :=
  ((splitTerm text).map pyStrip).filter fun s => !s.isEmpty

lemma pyReplace_cons (a b c : Char) (s : List Char) :
    pyReplace a b (c :: s) = (if c = a then b else c) :: pyReplace a b s := rfl

lemma replacedHead (c : Char) :
    (if (if c = '!' then ('.' : Char) else c) = '?' then ('.' : Char)
      else if c = '!' then ('.' : Char) else c) =
    (if c = '.' ∨ c = '!' ∨ c = '?' then ('.' : Char) else c) := by
  by_cases h1 : c = '!'
  · subst h1; decide
  · by_cases h2 : c = '?'
    · subst h2; decide
    · by_cases h3 : c = '.'
      · subst h3; decide
      · simp [h1, h2, h3]

lemma splitAux_eq (s : List Char) :
    pySplitAux '.' (pyReplace '?' '.' (pyReplace '!' '.' s)) = splitTermAux s := by
  induction s with
  | nil => rfl
  | cons c rest ih =>
    rw [pyReplace_cons, pyReplace_cons, pySplitAux, replacedHead, ih]
    by_cases hterm : c = '.' ∨ c = '!' ∨ c = '?'
    · have hdot : ('.' : Char) = '.' := rfl
      simp [splitTermAux, hterm]
    · have hne : c ≠ '.' := fun h => hterm (Or.inl h)
      have hne1 : c ≠ '!' := fun h => hterm (Or.inr (Or.inl h))
      have hne2 : c ≠ '?' := fun h => hterm (Or.inr (Or.inr h))
      simp [splitTermAux, hne, hne1, hne2]

lemma split_eq (s : List Char) :
    pySplit '.' (pyReplace '?' '.' (pyReplace '!' '.' s)) = splitTerm s := by
  unfold pySplit splitTerm
  rw [splitAux_eq]

lemma sentencesOf_eq_specSegments (text : List Char) :
    sentencesOf text = specSegments text := by
  unfold sentencesOf specSegments
  rw [split_eq]

/-! ## Interruptible speech playback (`indoorai_pi.speak`, lines 31-84)

The Back/cancel GPIO line reads during a call are abstracted into oracles:
`backAtCheckpoint i` is the read at line 47 guarding segment `i`;
`backDuringSeg i` tells whether some poll of the line at line 67 goes HIGH
while segment `i` is playing. -/

structure SpeakEnv where
  backAtCheckpoint : Nat → Bool
  backDuringSeg : Nat → Bool

structure SpeakResult where
  /-- Indices of the segments whose audio playback was started. -/
  started : List Nat
  /-- The segment whose in-progress audio was killed (lines 69-70), if any. -/
  killed : Option Nat
  /-- The Boolean returned by `speak`. -/
  ret : Bool
  /-- Value of the process-wide `interrupt_flag` when `speak` returns. -/
  flagAfter : Bool
deriving DecidableEq

/-- The per-segment loop of `speak` (lines 46-79) on the remaining segment
list, with `i` the index of the next segment and `flag` the current value
of `interrupt_flag`.  Checkpoint hit: `interrupt_flag = True`, `break`,
then `return not interrupt_flag` (= `false`).  Back seen during playback:
kill the audio processes and `return False` at once.  Otherwise the
segment plays to completion and the loop continues. -/
def speakFrom (env : SpeakEnv) : List (List Char) → Nat → Bool → SpeakResult
  | [], _, flag => ⟨[], none, !flag, flag⟩
  | _ :: rest, i, flag =>
    if flag || env.backAtCheckpoint i then ⟨[], none, false, true⟩
    else if env.backDuringSeg i then ⟨[i], some i, false, true⟩
    else
      ⟨i :: (speakFrom env rest (i + 1) flag).started,
        (speakFrom env rest (i + 1) flag).killed,
        (speakFrom env rest (i + 1) flag).ret,
        (speakFrom env rest (i + 1) flag).flagAfter⟩

/-- `speak(text)` (lines 31-79): whatever the value of the process-wide
`interrupt_flag` on entry (`flagBefore`), line 36 first resets it to
`False`, then the segment loop runs over `sentencesOf text` from index 0. -/
def speak (flagBefore : Bool) (env : SpeakEnv) (text : List Char) : SpeakResult :=
  speakFrom env (sentencesOf text) 0 false

/-- When the Back line never reads HIGH, the loop starts every remaining
segment in order and returns `true` with the flag still clear. -/
lemma speakFrom_quiet (env : SpeakEnv)
    (h : ∀ i, env.backAtCheckpoint i = false ∧ env.backDuringSeg i = false) :
    ∀ (segs : List (List Char)) (i : Nat),
      speakFrom env segs i false = ⟨List.range' i segs.length, none, true, false⟩ := by
  intro segs
  induction segs with
  | nil => intro i; simp [speakFrom, List.range']
  | cons s rest ih =>
    intro i
    simp [speakFrom, (h i).1, (h i).2, ih (i + 1), List.range']

/-- If the Back line is quiet strictly before segment `k` and reads HIGH
at segment `k` (at its checkpoint or during its playback), where `k` is a
valid index among the remaining segments, then the loop returns `false`,
starts no segment beyond `k`, and — when the trip happens during playback —
kills exactly segment `k`'s audio. -/
lemma speakFrom_tripped (env : SpeakEnv) (k : Nat) :
    ∀ (segs : List (List Char)) (i : Nat), i ≤ k → k < i + segs.length →
      (∀ j, i ≤ j → j < k → env.backAtCheckpoint j = false ∧ env.backDuringSeg j = false) →
      (env.backAtCheckpoint k = true ∨ env.backDuringSeg k = true) →
      (speakFrom env segs i false).ret = false ∧
      (∀ j ∈ (speakFrom env segs i false).started, j ≤ k) ∧
      (env.backAtCheckpoint k = false → (speakFrom env segs i false).killed = some k) := by
  intro segs
  induction segs with
  | nil =>
    intro i hik hkn _ _
    simp at hkn
    omega
  | cons s rest ih =>
    intro i hik hkn hquiet htrip
    by_cases hieq : i = k
    · subst hieq
      by_cases hck : env.backAtCheckpoint i = true
      · refine ⟨?_, ?_, ?_⟩ <;> simp [speakFrom, hck]
      · have hck' : env.backAtCheckpoint i = false := by
          cases h : env.backAtCheckpoint i
          · rfl
          · exact absurd h hck
        have hdur : env.backDuringSeg i = true := by
          rcases htrip with h | h
          · exact absurd h hck
          · exact h
        refine ⟨?_, ?_, ?_⟩ <;> simp [speakFrom, hck', hdur]
    · have hlt : i < k := lt_of_le_of_ne hik hieq
      have hq := hquiet i le_rfl hlt
      have ihr := ih (i + 1) (by omega) (by simp at hkn ⊢; omega)
        (fun j hj1 hj2 => hquiet j (by omega) hj2) htrip
      refine ⟨?_, ?_, ?_⟩
      · simp [speakFrom, hq.1, hq.2]
        exact ihr.1
      · intro j hj
        simp [speakFrom, hq.1, hq.2] at hj
        rcases hj with hj | hj
        · omega
        · exact ihr.2.1 j hj
      · intro hcf
        simp [speakFrom, hq.1, hq.2]
        exact ihr.2.2 hcf

/-! ## Mode state machine (`indoorai_pi.AccessibilityAssistant.run`, lines 195-206)

On a MAIN-button event: `"tap"` sets `mode_index = (mode_index + 1) % 3`
and announces the new mode (`announce_mode`, line 126: the mode name with
`" mode"` appended); the `"hold"` branch dispatches the current mode's
action and never assigns `mode_index`. -/

/-- `self.modes` (`indoorai_pi.py` line 118). -/
def modes : List String := ["voice", "capture", "book"]

/-- Effect of one MAIN-button event on `mode_index`, together with the
mode announcement made on a tap (`indoorai_pi.py` lines 200-202). -/
def runMainStep (action : String) (i : Nat) : Nat × Option String :=
  if action = "tap" then
    ((i + 1) % 3, some (modes.getD ((i + 1) % 3) "" ++ " mode"))
  else (i, none)

/-! ## Hold-action dispatcher (`indoorai_pi.AccessibilityAssistant.run`, lines 204-224)

The gateway is a function producing `Except.ok` (a response text) or
`Except.error` (a raised exception).  `HoldResult` records whether the AI
gateway was invoked and which texts were handed to `speak` after the
post-acquisition checkpoint; an `Except.error` overall result is an
exception escaping `run`. -/

/-- `ask_text` (`indoorai_pi.py` lines 129-132): prepend the fixed prompt
and call the gateway; any gateway exception propagates (no handler). -/
def ask_text (gateway : String → Except String String) (q : String) :
    Except String String :=
  gateway ("Assist a visually impaired person briefly.\n" ++ q)

/-- `ask_image` (`indoorai_pi.py` lines 134-148): mode-specific prompt plus
the image; only ever called with mode `"capture"` or `"book"`; any gateway
exception propagates (no handler). -/
def ask_image {α : Type} (gateway : String → α → Except String String)
    (img : α) (mode : String) : Except String String :=
  gateway (if mode = "capture" then "List objects briefly." else "Read all visible text.") img

/-- `capture` (`indoorai_pi.py` lines 172-180): `None` when the camera was
not opened (`self.camera` is `None`) or the frame read fails; otherwise
the converted frame. -/
def capture {α : Type} (camera : Option α) (readOk : Bool) : Option α :=
  match camera with
  | none => none
  | some frame => if readOk then some frame else none

structure HoldResult where
  aiCalled : Bool
  spoken : List String
deriving DecidableEq

/-- The `"voice"` hold branch (`indoorai_pi.py` lines 208-212): guard
`if text and not interrupt_flag`, then `ask_text` and `speak` its answer. -/
def voiceHoldPi (gateway : String → Except String String)
    (listenResult : Option String) (flag : Bool) : Except String HoldResult :=
  match listenResult with
  | none => .ok ⟨false, []⟩
  | some t =>
    if t ≠ "" ∧ flag = false then
      match ask_text gateway t with
      | .ok ans => .ok ⟨true, [ans]⟩
      | .error e => .error e
    else .ok ⟨false, []⟩

/-- The `"capture"`/`"book"` hold branches (`indoorai_pi.py` lines
214-224): guard `if img and not interrupt_flag`, then `ask_image` and
`speak` its answer. -/
def captureHoldPi {α : Type} (gateway : String → α → Except String String)
    (camera : Option α) (readOk : Bool) (flag : Bool) (mode : String) :
    Except String HoldResult :=
  match capture camera readOk with
  | none => .ok ⟨false, []⟩
  | some img =>
    if flag = false then
      match ask_image gateway img mode with
      | .ok ans => .ok ⟨true, [ans]⟩
      | .error e => .error e
    else .ok ⟨false, []⟩

/-- Dispatch of a Hold on the current mode (`indoorai_pi.py` lines
206-224). -/
def holdDispatchPi {α : Type} (mode : String)
    (textGateway : String → Except String String)
    (imageGateway : String → α → Except String String)
    (listenResult : Option String) (camera : Option α) (readOk : Bool)
    (flag : Bool) : Except String HoldResult :=
  if mode = "voice" then voiceHoldPi textGateway listenResult flag
  else if mode = "capture" then captureHoldPi imageGateway camera readOk flag "capture"
  else if mode = "book" then captureHoldPi imageGateway camera readOk flag "book"
  else .ok ⟨false, []⟩

/-- Acquisition (stage (a)/(b)) failed for the dispatched mode: for
`"voice"`, `listen()` returned `None` or an empty transcript; for the
image modes, `capture()` returned `None`. -/
def acquisitionFailed {α : Type} (mode : String) (listenResult : Option String)
    (camera : Option α) (readOk : Bool) : Prop :=
  if mode = "voice" then listenResult = none ∨ listenResult = some ""
  else capture camera readOk = none

/-- Camera announcement made once in `AccessibilityAssistant.__init__`
(`indoorai_pi.py` lines 110-115). -/
def initCameraAnnouncement {α : Type} (camera : Option α) : String :=
  match camera with
  | none => "Camera not available"
  | some _ => "Camera ready"

/-! ## Gateway error handling in `assistive_ai.py` -/

/-- `send_text_to_gemini` (`assistive_ai.py` lines 142-163): the gateway
call is wrapped in `try/except`; on failure the error message replaces
the normal response text. -/
def send_text_to_gemini (gateway : String → Except String String)
    (text : String) : String :=
  match gateway ("You are assisting a visually impaired person. Please provide clear, concise, and helpful responses to their question. User query: " ++ text) with
  | .ok r => r
  | .error e => "Error communicating with Gemini: " ++ e

/-- `process_voice_input` (`assistive_ai.py` lines 348-354): if a
transcript was obtained, the (possibly substituted) response is spoken. -/
def process_voice_input (gateway : String → Except String String)
    (listenResult : Option String) : List String :=
  match listenResult with
  | none => []
  | some t => if t ≠ "" then [send_text_to_gemini gateway t] else []

/-- Python `str.lower()` at character-list level. -/
def pyLower (s : List Char) : List Char :=
  s.map Char.toLower

/-- Does the second list begin with the first one? -/
def beginsWith : List Char → List Char → Bool
  | [], _ => true
  | _ :: _, [] => false
  | a :: as, b :: bs => a == b && beginsWith as bs

/-- Does the lowercased utterance contain the word, as Python `"yes" in s`? -/
def listContains (needle : List Char) : List Char → Bool
  | [] => needle.isEmpty
  | c :: rest => beginsWith needle (c :: rest) || listContains needle rest

/-- `capture_image` (`assistive_ai.py` lines 113-140): spoken messages and
the captured frame, `none` on unavailability or read failure. -/
def capture_image {α : Type} (camera : Option α) (readOk : Bool) :
    List String × Option α :=
  match camera with
  | none => (["Camera is not available."], none)
  | some frame =>
    if readOk then
      (["Capturing image in 3... 2... 1...", "Image captured successfully."], some frame)
    else
      (["Capturing image in 3... 2... 1...", "Failed to capture image from camera."], none)

/-- `send_image_to_gemini` (`assistive_ai.py` lines 165-219): wrapped in
`try/except`; `gw` is the outcome of the one gateway call made. -/
def send_image_to_gemini (gw : Except String String) : List String × String :=
  (["Analyzing the image with Gemini AI..."],
    match gw with
    | .ok r => r
    | .error e => "Error analyzing image with Gemini: " ++ e)

/-- `process_camera_input` (`assistive_ai.py` lines 356-378): with no
camera, speak the unavailability message and return before any capture or
gateway call; otherwise ask for optional context, capture, and send the
image.  Spoken prompts internal to `listen_for_voice` are not tracked.
Returns the spoken messages and whether the gateway was called. -/
def process_camera_input {α : Type} (camera : Option α)
    (contextAns contextDesc : Option String) (readOk : Bool)
    (gw : Option String → Except String String) : List String × Bool :=
  match camera with
  | none => (["Camera is not available. Please check your camera connection."], false)
  | some frame =>
    let s0 := ["Do you want to provide context for the image? Say yes or no."]
    let yes :=
      match contextAns with
      | some a => listContains "yes".toList (pyLower a.toList)
      | none => false
    let s1 := if yes then ["Please describe what you want me to focus on in the image."] else []
    let context : Option String := if yes then contextDesc else none
    let cap := capture_image (some frame) readOk
    match cap.2 with
    | none => (s0 ++ s1 ++ cap.1, false)
    | some _ =>
      let res := send_image_to_gemini (gw context)
      (s0 ++ s1 ++ cap.1 ++ res.1 ++ [res.2], true)

/-! ## Credential resolution at startup -/

structure CredResult where
  /-- The credential obtained; `none` models `sys.exit(1)`. -/
  key : Option (List Char)
  /-- Whether the prompted key was written to `config.txt`. -/
  saved : Bool
deriving DecidableEq

/-- Credential logic of `assistive_ai.main` (lines 497-555): environment
variable, else `config.txt` contents (stripped), else the interactive
prompt (stripped); a prompted key is saved exactly when the lowercased,
stripped answer is `yes` or `y`; `key = none` means the code then runs
`sys.exit(1)`.  Credential strings are character lists; `envVar = some []`
models an empty (falsy) environment variable, `configFile = none` a
missing `config.txt`. -/
def resolveKey (envVar configFile : Option (List Char))
    (promptLine saveLine : List Char) : CredResult :=
  let k1 : Option (List Char) :=
    match envVar with
    | some s => if s = [] then none else some s
    | none => none
  let k2 : Option (List Char) :=
    match k1 with
    | some k => some k
    | none =>
      match configFile with
      | some contents => if pyStrip contents = [] then none else some (pyStrip contents)
      | none => none
  match k2 with
  | some k => ⟨some k, false⟩
  | none =>
    if pyStrip promptLine = [] then ⟨none, false⟩
    else ⟨some (pyStrip promptLine),
      (pyStrip (pyLower saveLine) == "yes".toList) ||
        (pyStrip (pyLower saveLine) == "y".toList)⟩

/-- Credential logic of `indoorai_pi.main` (lines 236-242): environment
variable, else `config.txt` contents (stripped); there is no interactive
prompt; `none` means the code then runs `sys.exit(1)`. -/
def piResolveKey (envVar configFile : Option (List Char)) :
    Option (List Char) :=
  let api : Option (List Char) :=
    match envVar with
    | some s => if s = [] then none else some s
    | none => none
  match api with
  | some k => some k
  | none =>
    match configFile with
    | some contents => if pyStrip contents = [] then none else some (pyStrip contents)
    | none => none

/-! ## Concrete data for witnesses -/

/-- A speak environment in which the Back line never reads HIGH. -/
def quietEnv : SpeakEnv := ⟨fun _ => false, fun _ => false⟩

/-- A speak environment whose Back line reads HIGH exactly at the
checkpoint guarding segment 1. -/
def ckEnv : SpeakEnv := ⟨fun i => i == 1, fun _ => false⟩

/-- A three-sentence response text. -/
def demoText : List Char := "Hello. How are you? Good!".toList

/-! ## Claims -/

/-- C4: `wait_press` classifies a press of measured duration `dt` as
`"hold"` exactly when `dt > HOLD_TIME` (1.2 s) and as `"tap"` otherwise;
the boundary case `dt = HOLD_TIME` is consistently classified `"tap"`. -/
theorem press_classification (dt : ℚ) :
    (wait_press_result dt = "hold" ↔ HOLD_TIME < dt) ∧
    (wait_press_result dt = "tap" ↔ ¬HOLD_TIME < dt) ∧
    wait_press_result HOLD_TIME = "tap" := by
  have hne : ("tap" : String) ≠ "hold" := by decide
  refine ⟨?_, ?_, ?_⟩
  · by_cases h : HOLD_TIME < dt <;> simp [wait_press_result, h, hne]
  · by_cases h : HOLD_TIME < dt <;> simp [wait_press_result, h, hne]
  · simp [wait_press_result]

/-- C3: a Tap on the Main input sets the mode index to `(i + 1) mod 3` and
announces the new mode's name; a Hold never changes the index; three
consecutive Taps restore the starting index. -/
theorem tap_cycles_mode (i : Nat) :
    (runMainStep "tap" i).1 = (i + 1) % 3 ∧
    (runMainStep "tap" i).2 = some (modes.getD ((i + 1) % 3) "" ++ " mode") ∧
    (runMainStep "hold" i).1 = i ∧
    (i < 3 → (fun j => (runMainStep "tap" j).1)^[3] i = i) := by
  refine ⟨rfl, rfl, rfl, ?_⟩
  intro hi
  interval_cases i <;> rfl

theorem tap_cycles_mode_witness :
    (fun j => (runMainStep "tap" j).1)^[3] 2 = 2 :=
  (tap_cycles_mode 2).2.2.2 (by decide)

/-- C6: the segment sequence `speak` derives from its input text equals
the result of splitting the text on the sentence terminators `.`, `!`,
`?` and discarding empty (stripped) segments, and `speak` plays exactly
that sequence of chunks, segment by segment, in order. -/
theorem segmentation_correct (text : List Char) :
    sentencesOf text = specSegments text ∧
    ∀ (b : Bool) (env : SpeakEnv),
      speak b env text = speakFrom env (specSegments text) 0 false := by
  refine ⟨sentencesOf_eq_specSegments text, ?_⟩
  intro b env
  unfold speak
  rw [sentencesOf_eq_specSegments]

/-- C5: with no cancel signal during the call, `speak` starts all `N`
segments in their original order and returns `true`; with zero segments
(in particular empty text) it is a no-op that returns `true` with no
playback started and nothing killed. -/
theorem speak_uninterrupted (b : Bool) (env : SpeakEnv) (text : List Char) :
    ((∀ i, env.backAtCheckpoint i = false ∧ env.backDuringSeg i = false) →
      (speak b env text).started = List.range' 0 (sentencesOf text).length ∧
      (speak b env text).ret = true) ∧
    (sentencesOf text = [] → speak b env text = ⟨[], none, true, false⟩) ∧
    sentencesOf [] = [] := by
  refine ⟨?_, ?_, rfl⟩
  · intro h
    unfold speak
    rw [speakFrom_quiet env h]
    exact ⟨rfl, rfl⟩
  · intro h
    unfold speak
    rw [h]
    rfl

theorem speak_uninterrupted_witness :
    (speak false quietEnv demoText).ret = true ∧
    speak false quietEnv ([] : List Char) = ⟨[], none, true, false⟩ :=
  ⟨((speak_uninterrupted false quietEnv demoText).1 (fun _ => ⟨rfl, rfl⟩)).2,
    (speak_uninterrupted false quietEnv []).2.1 rfl⟩

/-- C1: if the cancel signal is first observed at segment `k` — at the
checkpoint guarding it or during its playback — then `speak` returns
`false`, starts no segment with index greater than `k`, and, when the
signal arrives during playback, kills segment `k`'s in-progress audio. -/
theorem speak_interrupted (b : Bool) (env : SpeakEnv) (text : List Char) (k : Nat)
    (hquiet : ∀ j, j < k → env.backAtCheckpoint j = false ∧ env.backDuringSeg j = false)
    (htrip : env.backAtCheckpoint k = true ∨ env.backDuringSeg k = true)
    (hk : k < (sentencesOf text).length) :
    (speak b env text).ret = false ∧
    (∀ j ∈ (speak b env text).started, j ≤ k) ∧
    (env.backAtCheckpoint k = false → (speak b env text).killed = some k) := by
  unfold speak
  exact speakFrom_tripped env k (sentencesOf text) 0 (Nat.zero_le k) (by omega)
    (fun j _ hj => hquiet j hj) htrip

theorem speak_interrupted_witness :
    (speak false ckEnv demoText).ret = false :=
  (speak_interrupted false ckEnv demoText 1
    (fun j hj => by
      have hj0 : j = 0 := by omega
      subst hj0
      exact ⟨rfl, rfl⟩)
    (Or.inl rfl)
    (by decide)).1

/-- C10: `speak` resets the process-wide interrupt flag at its start, so
its outcome is independent of the flag's value on entry; with a quiet
Back line the call plays every segment and returns `true` whatever that
prior value was, and any `false` return requires the Back line to be
observed HIGH at some checkpoint or playback poll during the call. -/
theorem speak_resets_flag (b : Bool) (env : SpeakEnv) (text : List Char) :
    speak b env text = speak false env text ∧
    ((∀ i, env.backAtCheckpoint i = false ∧ env.backDuringSeg i = false) →
      (speak b env text).ret = true ∧
      (speak b env text).started = List.range' 0 (sentencesOf text).length) ∧
    ((speak b env text).ret = false →
      ∃ i, env.backAtCheckpoint i = true ∨ env.backDuringSeg i = true) := by
  refine ⟨rfl, ?_, ?_⟩
  · intro h
    unfold speak
    rw [speakFrom_quiet env h]
    exact ⟨rfl, rfl⟩
  · intro hret
    by_contra hno
    push_neg at hno
    simp only [Bool.not_eq_true] at hno
    unfold speak at hret
    rw [speakFrom_quiet env hno] at hret
    simp at hret

theorem speak_resets_flag_witness :
    (speak true quietEnv demoText).ret = true :=
  ((speak_resets_flag true quietEnv demoText).2.1 (fun _ => ⟨rfl, rfl⟩)).1

/-- C2: a dispatched Hold issues no AI gateway request and performs no
further side effects — the dispatcher returns to idle normally with an
empty spoken list — whenever the interrupt flag is set before stage (c)
or the input acquisition failed. -/
theorem dispatcher_checkpoint (α : Type) (mode : String)
    (tg : String → Except String String) (ig : String → α → Except String String)
    (lr : Option String) (cam : Option α) (rok flag : Bool)
    (h : flag = true ∨ acquisitionFailed mode lr cam rok) :
    holdDispatchPi mode tg ig lr cam rok flag = .ok ⟨false, []⟩ := by
  by_cases hv : mode = "voice"
  · subst hv
    simp only [holdDispatchPi, if_pos rfl]
    simp only [acquisitionFailed, if_pos rfl] at h
    rcases lr with _ | t
    · simp [voiceHoldPi]
    · rcases h with hf | ha
      · subst hf
        simp [voiceHoldPi]
      · have ht : t = "" := by
          rcases ha with ha | ha
          · exact absurd ha (by simp)
          · exact Option.some_injective _ ha
        subst ht
        simp [voiceHoldPi]
  · have h' : flag = true ∨ capture cam rok = none := by
      rcases h with hf | ha
      · exact Or.inl hf
      · refine Or.inr ?_
        simpa [acquisitionFailed, hv] using ha
    by_cases hc : mode = "capture"
    · subst hc
      simp only [holdDispatchPi]
      rw [if_neg hv]
      simp only [if_true]
      rcases h' with hf | ha
      · subst hf
        rcases hcc : capture cam rok with _ | img
        · simp [captureHoldPi, hcc]
        · simp [captureHoldPi, hcc]
      · simp [captureHoldPi, ha]
    · by_cases hb : mode = "book"
      · subst hb
        simp only [holdDispatchPi]
        rw [if_neg hv, if_neg hc]
        simp only [if_true]
        rcases h' with hf | ha
        · subst hf
          rcases hcc : capture cam rok with _ | img
          · simp [captureHoldPi, hcc]
          · simp [captureHoldPi, hcc]
        · simp [captureHoldPi, ha]
      · simp [holdDispatchPi, hv, hc, hb]

theorem dispatcher_checkpoint_witness :
    holdDispatchPi "voice" (fun _ => Except.ok "resp")
      (fun _ (_ : Unit) => Except.ok "resp") (some "") none true false =
      .ok ⟨false, []⟩ :=
  dispatcher_checkpoint Unit "voice" (fun _ => Except.ok "resp")
    (fun _ (_ : Unit) => Except.ok "resp") (some "") none true false
    (Or.inr (by simp [acquisitionFailed]))

/-- C7 counterexample: in `indoorai_pi`, a gateway failure raised inside
`ask_text` is NOT caught at the dispatcher boundary: the voice Hold ends
in an uncaught exception instead of a spoken error message. -/
theorem gateway_failure_escapes_pi :
    voiceHoldPi (fun _ => Except.error "service unavailable")
      (some "what time is it") false = Except.error "service unavailable" := rfl

/-- C7 amended: in `assistive_ai`, a gateway failure is caught inside
`send_text_to_gemini`, converted into an error message substituted for
the normal response text, and spoken by `process_voice_input` with no
retry; in `indoorai_pi`, the same failure propagates uncaught out of the
voice Hold dispatch. -/
theorem gateway_failure_handling (e q : String) (hq : q ≠ "") :
    send_text_to_gemini (fun _ => Except.error e) q =
      "Error communicating with Gemini: " ++ e ∧
    process_voice_input (fun _ => Except.error e) (some q) =
      ["Error communicating with Gemini: " ++ e] ∧
    voiceHoldPi (fun _ => Except.error e) (some q) false = Except.error e := by
  refine ⟨rfl, ?_, ?_⟩
  · simp [process_voice_input, hq, send_text_to_gemini]
  · simp [voiceHoldPi, hq, ask_text]

theorem gateway_failure_handling_witness :
    voiceHoldPi (fun _ => Except.error "boom") (some "hi") false =
      Except.error "boom" :=
  (gateway_failure_handling "boom" "hi" (by decide)).2.2

/-- C8 counterexample: in `indoorai_pi`, a Hold in `capture` mode with the
camera unavailable issues no AI call but also speaks nothing at all — no
CaptureUnavailable-class message is produced at action time. -/
theorem capture_unavailable_silent_pi :
    holdDispatchPi "capture" (fun _ => Except.ok "resp")
      (fun _ (_ : Unit) => Except.ok "resp") none none true false =
      .ok ⟨false, []⟩ := rfl

/-- C8 amended: with the camera unavailable, a Hold in an image-using mode
issues no AI gateway call in either variant and the dispatcher returns
normally, leaving the device usable for the other modes; `assistive_ai`
speaks an unavailability message at action time, while `indoorai_pi`
speaks nothing then — its only unavailability announcement is the one
made once at startup. -/
theorem capture_unavailable_handling (α : Type)
    (ig : String → α → Except String String) (rok flag : Bool)
    (ca cd : Option String) (gw : Option String → Except String String) :
    captureHoldPi ig (none : Option α) rok flag "capture" = .ok ⟨false, []⟩ ∧
    captureHoldPi ig (none : Option α) rok flag "book" = .ok ⟨false, []⟩ ∧
    process_camera_input (none : Option α) ca cd rok gw =
      (["Camera is not available. Please check your camera connection."], false) ∧
    initCameraAnnouncement (none : Option α) = "Camera not available" :=
  ⟨rfl, rfl, rfl, rfl⟩

/-- C9 counterexample: with the environment variable unset and no config
file, `assistive_ai.main` obtains the credential from the interactive
prompt, but `indoorai_pi.main` exits with code 1 without ever consulting
a prompt. -/
theorem pi_never_prompts :
    piResolveKey none none = none ∧
    (resolveKey none none "mykey".toList "no".toList).key =
      some "mykey".toList :=
  ⟨rfl, rfl⟩

/-- C9 amended: `assistive_ai.main` resolves the credential with priority
environment variable → config file (stripped) → interactive prompt
(stripped), persists a prompted key exactly when the consent answer
lowers-and-strips to `yes` or `y`, and exits with code 1 when nothing is
obtained; `indoorai_pi.main` resolves only environment variable → config
file and exits with code 1 without any prompt. -/
theorem credential_resolution (e f p s : List Char)
    (he : e ≠ []) (hf : pyStrip f ≠ []) (hp : pyStrip p ≠ []) :
    (∀ file promptLine saveLine,
      resolveKey (some e) file promptLine saveLine = ⟨some e, false⟩) ∧
    (∀ saveLine, resolveKey none (some f) p saveLine = ⟨some (pyStrip f), false⟩) ∧
    ((resolveKey none none p s).key = some (pyStrip p) ∧
      ((resolveKey none none p s).saved = true ↔
        (pyStrip (pyLower s) = "yes".toList ∨ pyStrip (pyLower s) = "y".toList))) ∧
    (∀ q saveLine, pyStrip q = [] → resolveKey none none q saveLine = ⟨none, false⟩) ∧
    piResolveKey (some e) none = some e ∧
    piResolveKey none (some f) = some (pyStrip f) ∧
    piResolveKey none none = none := by
  refine ⟨?_, ?_, ⟨?_, ?_⟩, ?_, ?_, ?_, rfl⟩
  · intro file promptLine saveLine
    simp [resolveKey, he]
  · intro saveLine
    simp [resolveKey, hf]
  · simp [resolveKey, hp]
  · simp [resolveKey, hp]
  · intro q saveLine hq
    simp [resolveKey, hq]
  · simp [piResolveKey, he]
  · simp [piResolveKey, hf]

theorem credential_resolution_witness :
    piResolveKey (some "K1".toList) none = some "K1".toList :=
  (credential_resolution "K1".toList " K2 ".toList " K3 ".toList "YES".toList
    (by decide) (by decide) (by decide)).2.2.2.2.1

end NeuraLens
